import Mathlib

/-!
Shallow embedding of `pve-guest-exporter.py`, a Prometheus metrics exporter
for Proxmox with per-category TTL caches, a swap-probe rotator, deduplicated
error logging and API-token parsing.

Each Python function is modelled by a pure Lean function.  Upstream HTTP
calls are modelled by oracle parameters (an `Option`/inductive describing the
outcome of the call), module-level mutable state (the cache dicts, the
rotation index, the error-log set) is threaded explicitly, and a `fetched`
flag records whether a cached lookup actually issued an upstream call.
Times are modelled as natural numbers; metric samples keep their numeric
value as a rational instead of a formatted decimal string.
-/

/-- One emitted metric sample: metric name, rendered label string, numeric
value (the Python code renders `name{labels} value` as one text line). -/
structure Sample where
  name : String
  labels : String
  value : ℚ
deriving DecidableEq, Repr

/-- `CONFIG_CACHE_TTL = 600` from the script. -/
def CONFIG_CACHE_TTL : Nat := 600

/-- `DISK_USAGE_CACHE_TTL = 30` from the script. -/
def DISK_USAGE_CACHE_TTL : Nat := 30

/-- `STORAGE_CACHE_TTL = 60` from the script. -/
def STORAGE_CACHE_TTL : Nat := 60

/-- `CEPH_CACHE_TTL = 30` from the script. -/
def CEPH_CACHE_TTL : Nat := 30

/-- Python dict lookup `cache[k]` / `k in cache`: the value bound to the key,
if present. -/
def cacheLookup {α β : Type} [DecidableEq α] (m : List (α × β)) (k : α) : Option β :=
  match m with
  | [] => none
  | (a, b) :: t => if a = k then some b else cacheLookup t k

/-- Python dict assignment `cache[k] = v`: replaces the value of the key in
place if the key is present, otherwise appends the new binding at the end. -/
def cacheInsert {α β : Type} [DecidableEq α] (m : List (α × β)) (k : α) (v : β) :
    List (α × β) :=
  match m with
  | [] => [(k, v)]
  | (a, b) :: t => if a = k then (k, v) :: t else (a, b) :: cacheInsert t k v

/-- Key fact about the Python dict model: after `cache[k] = v`, looking up
`k` yields `v`. -/
theorem lookup_cacheInsert {α β : Type} [DecidableEq α] (m : List (α × β)) (k : α) (v : β) :
    cacheLookup (cacheInsert m k v) k = some v := by
  induction m with
  | nil => simp [cacheInsert, cacheLookup]
  | cons p t ih =>
    obtain ⟨a, b⟩ := p
    by_cases hp : a = k
    · simp [cacheInsert, hp, cacheLookup]
    · simp [cacheInsert, hp, cacheLookup, ih]

/-- `log_error_once`: emits and records the key only when it is not yet in
the `_logged_errors` set; returns whether it emitted, plus the new set. -/
def log_error_once (logged : List String) (error_key : String) : Bool × List String :=
  if error_key ∈ logged then (false, logged)
  else (true, error_key :: logged)

/-- `clear_error_log`: `discard` of the key from the `_logged_errors` set. -/
def clear_error_log (logged : List String) (error_key : String) : List String :=
  logged.filter (fun k => k ≠ error_key)

/-- Python `s.split(c, 1)` when it finds the separator: the part before the
first occurrence of `c` and the part after it; `none` when `c` is absent
(in which case the two-variable unpacking in the script raises). -/
def splitFirst (c : Char) : List Char → Option (List Char × List Char)
  | [] => none
  | x :: xs =>
    if x = c then some ([], xs)
    else
      match splitFirst c xs with
      | none => none
      | some (a, b) => some (x :: a, b)

/-- `parse_pve_api_token`: `user, rest = token.split('!', 1)` then
`tokenid, uuid = rest.split('=')`; any raised unpacking error (missing `!`,
or a number of `=` different from one in the rest) and the empty/absent
token give `(None, None, None)`, modelled as `none`. -/
def parse_pve_api_token (token : String) : Option (String × String × String) :=
  if token.isEmpty then none
  else
    match splitFirst '!' token.toList with
    | none => none
    | some (user, rest) =>
      match splitFirst '=' rest with
      | none => none
      | some (tokenid, uuid) =>
        if uuid.contains '=' then none
        else some (user.asString, tokenid.asString, uuid.asString)

/-- Python truthiness of an optional string environment variable: `None` and
the empty string are falsy. -/
def truthy : Option String → Bool
  | none => false
  | some s => !s.isEmpty

/-- Which branch of `authenticate` produced the result (observability tag for
the model; the script's control flow distinguishes the same four cases). -/
inductive AuthPath where
  | cachedAuth
  | tokenAuth
  | passwordAuth
  | failedAuth
deriving DecidableEq, Repr

/-- `authenticate`: return `true` from the auth cache if not expired; else
try the split env-var token, or parse `PVE_API_TOKEN` when the split one is
not fully set; else fall back to the username/password login, whose outcome
is the oracle `passwordLoginOk`; else `false`. -/
def authenticate (proxmoxUser tokenName tokenValue pveApiToken proxmoxPass : Option String)
    (validUntil now : Nat) (passwordLoginOk : Bool) : Bool × AuthPath :=
  if now < validUntil then (true, .cachedAuth)
  else
    let direct := truthy proxmoxUser && truthy tokenName && truthy tokenValue
    let parsed : Option String × Option String × Option String :=
      if !direct && truthy pveApiToken then
        match parse_pve_api_token (pveApiToken.getD "") with
        | some (u, t, v) => (some u, some t, some v)
        | none => (none, none, none)
      else (proxmoxUser, tokenName, tokenValue)
    if truthy parsed.1 && truthy parsed.2.1 && truthy parsed.2.2 then (true, .tokenAuth)
    else if truthy proxmoxPass && truthy proxmoxUser then (passwordLoginOk, .passwordAuth)
    else (false, .failedAuth)

/-- Result of a cached lookup: the returned value, the cache state after the
call, and whether an upstream call was issued. -/
structure FetchOut (α : Type) where
  value : α
  cache : List (String × α × Nat)
  fetched : Bool
deriving DecidableEq, Repr

/-- Upstream payload of `/nodes/NODE/TYPE/VMID/config` as used by the script
(`resp.json()["data"]` field accesses). -/
structure ConfigRaw where
  ostype : Option String
  hostname : Option String
  cores : Option Nat
  sockets : Option Nat
deriving DecidableEq, Repr

/-- The value cached by `get_vm_config_cached`. -/
structure ConfigData where
  ostype : String
  cpus : Nat
deriving DecidableEq, Repr

/-- `get_vm_config_cached`: serve a fresh cache entry without I/O; otherwise
fetch (`fetch = none` models a non-OK response or an exception), on success
store `(result, now)`, on failure return `{"ostype": "unknown", "cpus": 0}`
leaving the cache unchanged. -/
def get_vm_config_cached (cache : List (String × ConfigData × Nat))
    (node_name : String) (vmid : Nat) (guest_type : String) (now : Nat)
    (fetch : Option ConfigRaw) : FetchOut ConfigData :=
  let cache_key := node_name ++ ":" ++ guest_type ++ ":" ++ toString vmid
  let doFetch : FetchOut ConfigData :=
    match fetch with
    | some config =>
      let ostype0 := config.ostype.getD "unknown"
      let ostype :=
        if ostype0 = "unknown" ∧ guest_type = "lxc" then config.hostname.getD "unknown"
        else ostype0
      let cpus :=
        (config.cores.getD 1) * (if guest_type = "qemu" then config.sockets.getD 1 else 1)
      let result : ConfigData := ⟨ostype, cpus⟩
      ⟨result, cacheInsert cache cache_key (result, now), true⟩
    | none => ⟨⟨"unknown", 0⟩, cache, true⟩
  match cacheLookup cache cache_key with
  | some (data, ts) => if now - ts < CONFIG_CACHE_TTL then ⟨data, cache, false⟩ else doFetch
  | none => doFetch

/-- One filesystem record from the guest agent `get-fsinfo` result list. -/
structure FsInfo where
  mountpoint : Option String
  total_bytes : Option Nat
  used_bytes : Option Nat
deriving DecidableEq, Repr

/-- Outcome of the guest-agent `get-fsinfo` call as the script distinguishes
it: transport failure / non-OK / JSON without a `data` key, a guest-agent
error object, a `result` that is not a list, or a proper filesystem list. -/
inductive AgentResp where
  | fail
  | agentError
  | resultNotList
  | resultList (l : List FsInfo)
deriving DecidableEq, Repr

/-- `get_guest_disk_usage_cached`: `None` immediately for non-qemu guests;
serve a fresh cache entry without I/O; otherwise fetch — only a proper
filesystem list is stored as a success, every other outcome stores
`(None, now)` in the cache and returns `None`. -/
def get_guest_disk_usage_cached (cache : List (String × Option (List FsInfo) × Nat))
    (node_name : String) (vmid : Nat) (guest_type : String) (now : Nat)
    (fetch : AgentResp) : FetchOut (Option (List FsInfo)) :=
  if guest_type ≠ "qemu" then ⟨none, cache, false⟩
  else
    let cache_key := node_name ++ ":" ++ toString vmid ++ ":disk"
    let doFetch : FetchOut (Option (List FsInfo)) :=
      match fetch with
      | .resultList disk_usage =>
        ⟨some disk_usage, cacheInsert cache cache_key (some disk_usage, now), true⟩
      | _ => ⟨none, cacheInsert cache cache_key (none, now), true⟩
    match cacheLookup cache cache_key with
    | some (data, ts) => if now - ts < DISK_USAGE_CACHE_TTL then ⟨data, cache, false⟩ else doFetch
    | none => doFetch

/-- One record of the `/cluster/resources` listing, with the fields the
script reads (absent keys are `none`; `.get(k, d)` applies the default at
the use site). -/
structure Resource where
  rtype : Option String
  node : Option String
  vmid : Option Nat
  name : Option String
  status : Option String
  cpu : Option ℚ
  mem : Option Nat
  maxmem : Option Nat
  disk : Option Nat
  maxdisk : Option Nat
  uptime : Option Nat
  netin : Option Nat
  netout : Option Nat
  diskread : Option Nat
  diskwrite : Option Nat
  swap : Option Nat
  maxswap : Option Nat
  storage : Option String
deriving DecidableEq, Repr

/-- The storage-metrics loop body of `get_storage_metrics_cached`: four
samples per resource of type `storage`. -/
def buildStorageMetrics (resources : List Resource) : List Sample :=
  resources.flatMap (fun resource =>
    if resource.rtype = some "storage" then
      let node := resource.node.getD "unknown"
      let storage_id := resource.storage.getD "unknown"
      let total := resource.maxdisk.getD 0
      let used := resource.disk.getD 0
      let available := if total > used then total - used else 0
      let status : ℚ := if resource.status = some "available" then 1 else 0
      let labels := "node=\"" ++ node ++ "\",storage=\"" ++ storage_id ++ "\""
      [⟨"proxmox_storage_total_bytes", labels, total⟩,
       ⟨"proxmox_storage_used_bytes", labels, used⟩,
       ⟨"proxmox_storage_available_bytes", labels, available⟩,
       ⟨"proxmox_storage_status", labels, status⟩]
    else [])

/-- `get_storage_metrics_cached`: serve a fresh `"storage"` entry without
I/O; otherwise fetch `/cluster/resources` (`none` models a non-OK response
or an exception, leaving `metrics = []`), and always store `(metrics, now)`
— also when the fetch failed. -/
def get_storage_metrics_cached (cache : List (String × List Sample × Nat)) (now : Nat)
    (fetch : Option (List Resource)) : FetchOut (List Sample) :=
  let doFetch : FetchOut (List Sample) :=
    let metrics := match fetch with
      | some resources => buildStorageMetrics resources
      | none => []
    ⟨metrics, cacheInsert cache "storage" (metrics, now), true⟩
  match cacheLookup cache "storage" with
  | some (data, ts) => if now - ts < STORAGE_CACHE_TTL then ⟨data, cache, false⟩ else doFetch
  | none => doFetch

/-- One `pgs_by_state` record of the Ceph status. -/
structure PgState where
  state_name : Option String
  count : Option Nat
deriving DecidableEq, Repr

/-- The `pgmap` object of the Ceph status (only the fields the script reads). -/
structure PgMap where
  read_op_per_sec : Option ℚ
  write_op_per_sec : Option ℚ
  read_bytes_sec : Option ℚ
  write_bytes_sec : Option ℚ
  bytes_total : Option Nat
  bytes_used : Option Nat
  bytes_avail : Option Nat
  num_pgs : Option Nat
  pgs_by_state : List PgState
deriving DecidableEq, Repr

/-- The `osdmap` object of the Ceph status. -/
structure OsdMap where
  num_osds : Option Nat
  num_up_osds : Option Nat
  num_in_osds : Option Nat
deriving DecidableEq, Repr

/-- The Ceph cluster status payload: `health.status`, the `pgmap` (a falsy
empty dict is modelled as `none`), the monitor list length, the quorum list,
and the `osdmap` (falsy empty dict likewise `none`). -/
structure CephStatus where
  health_status : Option String
  pgmap : Option PgMap
  monmap_mons : Option (List String)
  quorum : List String
  osdmap : Option OsdMap
deriving DecidableEq, Repr

/-- The metric construction of `get_ceph_metrics_cached` for an OK status
response. -/
def buildCephMetrics (status : CephStatus) : List Sample :=
  (match status.health_status with
   | some h => [⟨"proxmox_ceph_cluster_health", "status=\"" ++ h ++ "\"", 1⟩]
   | none => []) ++
  (match status.pgmap with
   | some pgmap =>
     (match pgmap.read_op_per_sec with
      | some v => [⟨"proxmox_ceph_cluster_read_iops", "cluster=\"ceph\"", v⟩]
      | none => []) ++
     (match pgmap.write_op_per_sec with
      | some v => [⟨"proxmox_ceph_cluster_write_iops", "cluster=\"ceph\"", v⟩]
      | none => []) ++
     (match pgmap.read_bytes_sec with
      | some v => [⟨"proxmox_ceph_cluster_read_bytes_sec", "cluster=\"ceph\"", v⟩]
      | none => []) ++
     (match pgmap.write_bytes_sec with
      | some v => [⟨"proxmox_ceph_cluster_write_bytes_sec", "cluster=\"ceph\"", v⟩]
      | none => []) ++
     (match pgmap.bytes_total with
      | some v => [⟨"proxmox_ceph_cluster_total_bytes", "cluster=\"ceph\"", v⟩]
      | none => []) ++
     (match pgmap.bytes_used with
      | some v => [⟨"proxmox_ceph_cluster_used_bytes", "cluster=\"ceph\"", v⟩]
      | none => []) ++
     (match pgmap.bytes_avail with
      | some v => [⟨"proxmox_ceph_cluster_available_bytes", "cluster=\"ceph\"", v⟩]
      | none => []) ++
     (match pgmap.num_pgs with
      | some v => [⟨"proxmox_ceph_cluster_pgs_total", "cluster=\"ceph\"", v⟩]
      | none => []) ++
     (pgmap.pgs_by_state.flatMap (fun pg_state =>
        let state_name := pg_state.state_name.getD "unknown"
        let count := pg_state.count.getD 0
        [⟨"proxmox_ceph_pgs_by_state",
          "cluster=\"ceph\",state=\"" ++ state_name ++ "\"", count⟩]))
   | none => []) ++
  (match status.monmap_mons with
   | some mons => [⟨"proxmox_ceph_monitors_total", "cluster=\"ceph\"", mons.length⟩]
   | none => []) ++
  [⟨"proxmox_ceph_monitors_in_quorum", "cluster=\"ceph\"", status.quorum.length⟩] ++
  (match status.osdmap with
   | some osdmap =>
     (match osdmap.num_osds with
      | some v => [⟨"proxmox_ceph_osds_total", "cluster=\"ceph\"", v⟩]
      | none => []) ++
     (match osdmap.num_up_osds with
      | some v => [⟨"proxmox_ceph_osds_up", "cluster=\"ceph\"", v⟩]
      | none => []) ++
     (match osdmap.num_in_osds with
      | some v => [⟨"proxmox_ceph_osds_in", "cluster=\"ceph\"", v⟩]
      | none => []) ++
     (let num_down : ℤ := (osdmap.num_osds.getD 0 : ℤ) - (osdmap.num_up_osds.getD 0 : ℤ)
      let num_out : ℤ := (osdmap.num_osds.getD 0 : ℤ) - (osdmap.num_in_osds.getD 0 : ℤ)
      [⟨"proxmox_ceph_osds_down", "cluster=\"ceph\"", num_down⟩,
       ⟨"proxmox_ceph_osds_out", "cluster=\"ceph\"", num_out⟩])
   | none => [])

/-- `get_ceph_metrics_cached`: same cache wrapper as the storage metrics,
with key `"ceph"` and `CEPH_CACHE_TTL`; a failed fetch stores `([], now)`. -/
def get_ceph_metrics_cached (cache : List (String × List Sample × Nat)) (now : Nat)
    (fetch : Option CephStatus) : FetchOut (List Sample) :=
  let doFetch : FetchOut (List Sample) :=
    let metrics := match fetch with
      | some status => buildCephMetrics status
      | none => []
    ⟨metrics, cacheInsert cache "ceph" (metrics, now), true⟩
  match cacheLookup cache "ceph" with
  | some (data, ts) => if now - ts < CEPH_CACHE_TTL then ⟨data, cache, false⟩ else doFetch
  | none => doFetch

/-- The `memory` object of the node status. -/
structure MemStatus where
  used : Nat
  total : Nat
  free : Nat
deriving DecidableEq, Repr

/-- The `rootfs` object of the node status. -/
structure RootfsStatus where
  used : Nat
  total : Nat
  avail : Nat
deriving DecidableEq, Repr

/-- The node `/status` payload with the fields the script reads. -/
structure HostStatus where
  cpu : Option ℚ
  cpuinfo_cpus : Option Nat
  memory : Option MemStatus
  rootfs : Option RootfsStatus
deriving DecidableEq, Repr

/-- `get_host_resources_realtime`: uncached; a failed call (`none`) yields no
samples, an OK response yields one sample per present field group. -/
def get_host_resources_realtime (node_name : String) (fetch : Option HostStatus) :
    List Sample :=
  match fetch with
  | none => []
  | some status =>
    let labels := "node=\"" ++ node_name ++ "\""
    (match status.cpu with
     | some c => [⟨"proxmox_host_cpu_usage", labels, c⟩]
     | none => []) ++
    (match status.cpuinfo_cpus with
     | some c => [⟨"proxmox_host_cpu_total", labels, c⟩]
     | none => []) ++
    (match status.memory with
     | some memory =>
       [⟨"proxmox_host_mem_used_bytes", labels, memory.used⟩,
        ⟨"proxmox_host_mem_total_bytes", labels, memory.total⟩,
        ⟨"proxmox_host_mem_free_bytes", labels, memory.free⟩]
     | none => []) ++
    (match status.rootfs with
     | some rootfs =>
       [⟨"proxmox_host_storage_used_bytes", labels, rootfs.used⟩,
        ⟨"proxmox_host_storage_total_bytes", labels, rootfs.total⟩,
        ⟨"proxmox_host_storage_available_bytes", labels, rootfs.avail⟩]
     | none => [])

/-- Python `s.replace(c, r)` for a single-character pattern, as used for the
mountpoint label cleaning. -/
def replaceChar (s : String) (c : Char) (r : String) : String :=
  (s.toList.flatMap (fun ch => if ch = c then r.toList else [ch])).asString

/-- Python `s.strip("_")`: remove leading and trailing underscores. -/
def stripUnderscores (s : String) : String :=
  (((s.toList.dropWhile (fun ch => ch = '_')).reverse.dropWhile
      (fun ch => ch = '_')).reverse).asString

/-- The per-filesystem part of `generate_guest_metrics`: deduplicate by
mountpoint keeping the first record, then emit three samples per unique
mountpoint with the cleaned label strings. -/
def buildFsMetrics (labels : String) (disk_usage : List FsInfo) : List Sample :=
  let unique_filesystems := disk_usage.foldl
    (fun (acc : List (String × FsInfo)) fs =>
      let mountpoint := fs.mountpoint.getD "unknown"
      if (cacheLookup acc mountpoint).isSome then acc else acc ++ [(mountpoint, fs)]) []
  unique_filesystems.flatMap (fun p =>
    let mountpoint := p.1
    let fs := p.2
    let total_bytes := fs.total_bytes.getD 0
    let used_bytes := fs.used_bytes.getD 0
    let available_bytes := if total_bytes > used_bytes then total_bytes - used_bytes else 0
    let clean_mountpoint :=
      replaceChar (replaceChar (replaceChar (replaceChar mountpoint
        '\\' "\\\\") '"' "\\\"") '\n' "\\n") '\t' "\\t"
    let fs_id := stripUnderscores
      (replaceChar (replaceChar (replaceChar (replaceChar (replaceChar mountpoint
        '/' "_") '\\' "_") ':' "_") ' ' "_") '"' "_")
    let filesystem_id := if fs_id = "" then "root" else fs_id
    let fs_lbl := labels ++ ",mountpoint=\"" ++ clean_mountpoint
      ++ "\",filesystem=\"" ++ filesystem_id ++ "\""
    [⟨"proxmox_guest_vm_disk_total_bytes", fs_lbl, total_bytes⟩,
     ⟨"proxmox_guest_vm_disk_used_bytes", fs_lbl, used_bytes⟩,
     ⟨"proxmox_guest_vm_disk_available_bytes", fs_lbl, available_bytes⟩])

/-- Per-guest snapshot held in `guest_status` (all fields are filled from a
bulk resource record with the script's `.get` defaults). -/
structure GuestData where
  vmid : Nat
  name : String
  gtype : String
  status : String
  cpu : ℚ
  mem : Nat
  maxmem : Nat
  disk : Nat
  maxdisk : Nat
  uptime : Nat
  netin : Nat
  netout : Nat
  diskread : Nat
  diskwrite : Nat
  swap : Nat
  maxswap : Nat
deriving DecidableEq, Repr

/-- `generate_guest_metrics`: 14 core samples per guest, plus the
per-filesystem samples when a non-empty disk usage list is given (Python
`if disk_usage:` is falsy for both `None` and `[]`). -/
def generate_guest_metrics (node_name : String) (vmid : Nat) (guest_data : GuestData)
    (config_data : ConfigData) (disk_usage : Option (List FsInfo)) : List Sample :=
  let status_val : ℚ := if guest_data.status = "running" then 1 else 0
  let labels := "node=\"" ++ node_name ++ "\",vmid=\"" ++ toString vmid
    ++ "\",name=\"" ++ guest_data.name ++ "\",ostype=\"" ++ config_data.ostype
    ++ "\",type=\"" ++ guest_data.gtype ++ "\""
  let metrics : List Sample :=
    [⟨"proxmox_guest_status", labels, status_val⟩,
     ⟨"proxmox_guest_cpus", labels, config_data.cpus⟩,
     ⟨"proxmox_guest_cpu_ratio", labels, guest_data.cpu⟩,
     ⟨"proxmox_guest_uptime_seconds", labels, guest_data.uptime⟩,
     ⟨"proxmox_guest_mem_bytes", labels, guest_data.mem⟩,
     ⟨"proxmox_guest_maxmem_bytes", labels, guest_data.maxmem⟩,
     ⟨"proxmox_guest_disk_bytes", labels, guest_data.disk⟩,
     ⟨"proxmox_guest_maxdisk_bytes", labels, guest_data.maxdisk⟩,
     ⟨"proxmox_guest_netin_bytes_total", labels, guest_data.netin⟩,
     ⟨"proxmox_guest_netout_bytes_total", labels, guest_data.netout⟩,
     ⟨"proxmox_guest_diskread_bytes_total", labels, guest_data.diskread⟩,
     ⟨"proxmox_guest_diskwrite_bytes_total", labels, guest_data.diskwrite⟩,
     ⟨"proxmox_guest_swap_bytes", labels, guest_data.swap⟩,
     ⟨"proxmox_guest_maxswap_bytes", labels, guest_data.maxswap⟩]
  match disk_usage with
  | some l => if l ≠ [] then metrics ++ buildFsMetrics labels l else metrics
  | none => metrics

/-- Fresh swap numbers from a `status/current` probe (`.get("swap", 0)` and
`.get("maxswap", 0)`). -/
structure SwapData where
  swap : Nat
  maxswap : Nat
deriving DecidableEq, Repr

/-- Step 1 record construction of `get_realtime_guest_status` for one bulk
resource of type qemu/lxc on the local node. -/
def mkGuestData (vmid : Nat) (t : String) (resource : Resource) : GuestData :=
  { vmid := vmid
  , name := resource.name.getD ("vm" ++ toString vmid)
  , gtype := t
  , status := resource.status.getD "unknown"
  , cpu := resource.cpu.getD 0
  , mem := resource.mem.getD 0
  , maxmem := resource.maxmem.getD 0
  , disk := resource.disk.getD 0
  , maxdisk := resource.maxdisk.getD 0
  , uptime := resource.uptime.getD 0
  , netin := resource.netin.getD 0
  , netout := resource.netout.getD 0
  , diskread := resource.diskread.getD 0
  , diskwrite := resource.diskwrite.getD 0
  , swap := resource.swap.getD 0
  , maxswap := resource.maxswap.getD 0 }

/-- Step 1 of `get_realtime_guest_status`: build the `guest_status` dict and
the `running_vms` list from the bulk listing (a vmid of `0` is falsy in
Python and skipped). -/
def buildGuestStatus (node_name : String) (resources : List Resource) :
    List (Nat × GuestData) × List Nat :=
  resources.foldl (fun acc resource =>
    match resource.rtype with
    | some t =>
      if (t = "qemu" ∨ t = "lxc") ∧ resource.node = some node_name then
        match resource.vmid with
        | some vmid =>
          if vmid ≠ 0 then
            let gs := cacheInsert acc.1 vmid (mkGuestData vmid t resource)
            let run := if resource.status = some "running" then acc.2 ++ [vmid] else acc.2
            (gs, run)
          else acc
        | none => acc
      else acc
    | none => acc) ([], [])

/-- Step 2 of `get_realtime_guest_status`: overwrite the swap fields of every
running guest with its cached swap data, regardless of the entry's age. -/
def applySwapCache (node_name : String) (swapCache : List (String × SwapData × Nat))
    (guests : List (Nat × GuestData)) : List (Nat × GuestData) :=
  guests.map (fun p =>
    let vmid := p.1
    let data := p.2
    if data.status = "running" then
      match cacheLookup swapCache (node_name ++ ":" ++ toString vmid ++ ":swap") with
      | some (cached_swap, _ts) =>
        (vmid, { data with swap := cached_swap.swap, maxswap := cached_swap.maxswap })
      | none => (vmid, data)
    else (vmid, data))

/-- Step 3 batch selection of `get_realtime_guest_status`: the two entries of
the running list starting at the rotation cursor, wrapping cyclically;
nothing when the running list is empty. -/
def vmsToCheck (running_vms : List Nat) (rotation_index : Nat) : List Nat :=
  if running_vms = [] then []
  else (List.range 2).filterMap (fun i =>
    running_vms[(rotation_index + i) % running_vms.length]?)

/-- Step 3 cursor update of `get_realtime_guest_status`:
`(_swap_rotation_index + 2) % max(len(running_vms), 1)`, executed only when
the running list is non-empty. -/
def advanceCursor (running_vms : List Nat) (rotation_index : Nat) : Nat :=
  if running_vms = [] then rotation_index
  else (rotation_index + 2) % max running_vms.length 1

/-- The cursor after a number of consecutive scrapes over a stable running
list. -/
def cursorIter (running_vms : List Nat) : Nat → Nat → Nat
  | 0, c => c
  | k + 1, c => cursorIter running_vms k (advanceCursor running_vms c)

/-- Step 3 probe loop: for each selected vmid that is in `guest_status`, a
`status/current` probe is issued (recorded in `probed`); on success both the
live record and the swap cache entry are updated, a failed probe is skipped
(`continue`). -/
def probeSelected (node_name : String) (statusFetch : Nat → Option SwapData)
    (now : Nat) (selected : List Nat) (guests : List (Nat × GuestData))
    (swapCache : List (String × SwapData × Nat)) :
    List (Nat × GuestData) × List (String × SwapData × Nat) × List Nat :=
  selected.foldl (fun acc vmid =>
    let (gs, sc, probed) := acc
    match cacheLookup gs vmid with
    | some data =>
      match statusFetch vmid with
      | some status_data =>
        let gs2 := cacheInsert gs vmid
          { data with swap := status_data.swap, maxswap := status_data.maxswap }
        let sc2 := cacheInsert sc (node_name ++ ":" ++ toString vmid ++ ":swap")
          (⟨status_data.swap, status_data.maxswap⟩, now)
        (gs2, sc2, probed ++ [vmid])
      | none => (gs, sc, probed ++ [vmid])
    | none => acc) (guests, swapCache, [])

/-- Result of `get_realtime_guest_status`: the guest map, the swap cache and
rotation cursor after the call, and the vmids for which a probe call was
issued. -/
structure RtOut where
  guests : List (Nat × GuestData)
  swapCache : List (String × SwapData × Nat)
  rotation_index : Nat
  probed : List Nat
deriving DecidableEq, Repr

/-- `get_realtime_guest_status`: on bulk-listing failure return `{}` leaving
the cursor and swap cache untouched; otherwise build the guest map, apply
cached swap data, and when running guests exist probe the rotated batch and
advance the cursor. -/
def get_realtime_guest_status (bulk : Option (List Resource)) (node_name : String)
    (swapCache : List (String × SwapData × Nat)) (rotation_index : Nat) (now : Nat)
    (statusFetch : Nat → Option SwapData) : RtOut :=
  match bulk with
  | none => ⟨[], swapCache, rotation_index, []⟩
  | some resources =>
    let built := buildGuestStatus node_name resources
    let guest_status := applySwapCache node_name swapCache built.1
    let running_vms := built.2
    if running_vms = [] then ⟨guest_status, swapCache, rotation_index, []⟩
    else
      let selected := vmsToCheck running_vms rotation_index
      let out := probeSelected node_name statusFetch now selected guest_status swapCache
      ⟨out.1, out.2.1, advanceCursor running_vms rotation_index, out.2.2⟩

/-- Outcome of the `/pve` endpoint: an OK metrics body or a 500 diagnostic. -/
inductive ScrapeResult where
  | ok (samples : List Sample)
  | err (msg : String)
deriving DecidableEq, Repr

/-- HTTP status of a `ScrapeResult` (both error responses use 500). -/
def statusCode : ScrapeResult → Nat
  | .ok _ => 200
  | .err _ => 500

/-- The emitted samples of a `ScrapeResult`. -/
def scrapeSamples : ScrapeResult → List Sample
  | .ok samples => samples
  | .err _ => []

/-- All upstream-call outcomes for one scrape (each field is the oracle for
one upstream endpoint; `/cluster/resources` is called twice per scrape —
once by `get_realtime_guest_status`, once by `get_storage_metrics_cached` —
hence two separate fields). -/
structure Upstream where
  authOk : Bool
  bulkGuest : Option (List Resource)
  bulkStorage : Option (List Resource)
  configFetch : String → Nat → Option ConfigRaw
  diskFetch : Nat → AgentResp
  statusFetch : Nat → Option SwapData
  cephFetch : Option CephStatus
  hostFetch : Option HostStatus

/-- Process-wide mutable state of the exporter: the five cache dicts and the
rotation cursor. -/
structure AppState where
  configCache : List (String × ConfigData × Nat)
  diskCache : List (String × Option (List FsInfo) × Nat)
  storageCache : List (String × List Sample × Nat)
  cephCache : List (String × List Sample × Nat)
  swapCache : List (String × SwapData × Nat)
  rotation_index : Nat
deriving DecidableEq, Repr

/-- The `/pve` endpoint `pve_metrics`: auth failure yields the 500 response
`# Auth failed`; otherwise the guest map is fetched (empty on bulk failure),
each guest contributes config- and disk-cached metrics, then storage, Ceph
and host metrics are appended and a 200 response is returned. -/
def pve_metrics (st : AppState) (up : Upstream) (node_name : String) (now : Nat) :
    ScrapeResult × AppState :=
  if !up.authOk then (.err "# Auth failed", st)
  else
    let rt := get_realtime_guest_status up.bulkGuest node_name st.swapCache
      st.rotation_index now up.statusFetch
    let loop := rt.guests.foldl (fun acc p =>
      let (samples, cc, dc) := acc
      let vmid := p.1
      let guest_data := p.2
      let guest_type := guest_data.gtype
      let configOut := get_vm_config_cached cc node_name vmid guest_type now
        (up.configFetch guest_type vmid)
      let diskStep : Option (List FsInfo) × List (String × Option (List FsInfo) × Nat) :=
        if guest_type = "qemu" ∧ guest_data.status = "running" then
          let diskOut := get_guest_disk_usage_cached dc node_name vmid guest_type now
            (up.diskFetch vmid)
          (diskOut.value, diskOut.cache)
        else (none, dc)
      (samples ++ generate_guest_metrics node_name vmid guest_data configOut.value diskStep.1,
       configOut.cache, diskStep.2)) ([], st.configCache, st.diskCache)
    let storageOut := get_storage_metrics_cached st.storageCache now up.bulkStorage
    let cephOut := get_ceph_metrics_cached st.cephCache now up.cephFetch
    let hostSamples := get_host_resources_realtime node_name up.hostFetch
    (.ok (loop.1 ++ storageOut.value ++ cephOut.value ++ hostSamples),
     { configCache := loop.2.1
     , diskCache := loop.2.2
     , storageCache := storageOut.cache
     , cephCache := cephOut.cache
     , swapCache := rt.swapCache
     , rotation_index := rt.rotation_index })

theorem config_cache_hit (cache : List (String × ConfigData × Nat))
    (node_name : String) (vmid : Nat) (guest_type : String) (now : Nat)
    (fetch : Option ConfigRaw) (data : ConfigData) (ts : Nat)
    (hl : cacheLookup cache (node_name ++ ":" ++ guest_type ++ ":" ++ toString vmid)
        = some (data, ts))
    (hf : now - ts < CONFIG_CACHE_TTL) :
    get_vm_config_cached cache node_name vmid guest_type now fetch = ⟨data, cache, false⟩ := by
  simp only [get_vm_config_cached, hl, if_pos hf]

theorem disk_cache_hit (cache : List (String × Option (List FsInfo) × Nat))
    (node_name : String) (vmid : Nat) (now : Nat) (fetch : AgentResp)
    (data : Option (List FsInfo)) (ts : Nat)
    (hl : cacheLookup cache (node_name ++ ":" ++ toString vmid ++ ":disk") = some (data, ts))
    (hf : now - ts < DISK_USAGE_CACHE_TTL) :
    get_guest_disk_usage_cached cache node_name vmid "qemu" now fetch = ⟨data, cache, false⟩ := by
  simp only [get_guest_disk_usage_cached, hl, if_pos hf]
  simp

theorem storage_cache_hit (cache : List (String × List Sample × Nat)) (now : Nat)
    (fetch : Option (List Resource)) (data : List Sample) (ts : Nat)
    (hl : cacheLookup cache "storage" = some (data, ts))
    (hf : now - ts < STORAGE_CACHE_TTL) :
    get_storage_metrics_cached cache now fetch = ⟨data, cache, false⟩ := by
  simp only [get_storage_metrics_cached, hl, if_pos hf]

theorem ceph_cache_hit (cache : List (String × List Sample × Nat)) (now : Nat)
    (fetch : Option CephStatus) (data : List Sample) (ts : Nat)
    (hl : cacheLookup cache "ceph" = some (data, ts))
    (hf : now - ts < CEPH_CACHE_TTL) :
    get_ceph_metrics_cached cache now fetch = ⟨data, cache, false⟩ := by
  simp only [get_ceph_metrics_cached, hl, if_pos hf]

theorem config_stores (cache : List (String × ConfigData × Nat))
    (node_name : String) (vmid : Nat) (guest_type : String) (t0 : Nat) (raw : ConfigRaw)
    (hfetch : (get_vm_config_cached cache node_name vmid guest_type t0 (some raw)).fetched
        = true) :
    cacheLookup (get_vm_config_cached cache node_name vmid guest_type t0 (some raw)).cache
        (node_name ++ ":" ++ guest_type ++ ":" ++ toString vmid)
      = some ((get_vm_config_cached cache node_name vmid guest_type t0 (some raw)).value, t0) := by
  cases hcl : cacheLookup cache (node_name ++ ":" ++ guest_type ++ ":" ++ toString vmid) with
  | none =>
    simp only [get_vm_config_cached, hcl]
    exact lookup_cacheInsert _ _ _
  | some p =>
    obtain ⟨data, ts⟩ := p
    by_cases hfr : t0 - ts < CONFIG_CACHE_TTL
    · simp only [get_vm_config_cached, hcl, if_pos hfr] at hfetch
      simp at hfetch
    · simp only [get_vm_config_cached, hcl, if_neg hfr]
      exact lookup_cacheInsert _ _ _

theorem disk_stores (cache : List (String × Option (List FsInfo) × Nat))
    (node_name : String) (vmid : Nat) (t0 : Nat) (fetch : AgentResp)
    (hfetch : (get_guest_disk_usage_cached cache node_name vmid "qemu" t0 fetch).fetched
        = true) :
    cacheLookup (get_guest_disk_usage_cached cache node_name vmid "qemu" t0 fetch).cache
        (node_name ++ ":" ++ toString vmid ++ ":disk")
      = some ((get_guest_disk_usage_cached cache node_name vmid "qemu" t0 fetch).value, t0) := by
  cases hcl : cacheLookup cache (node_name ++ ":" ++ toString vmid ++ ":disk") with
  | none =>
    cases fetch <;>
      simp only [get_guest_disk_usage_cached, hcl] <;>
      simp only [ne_eq, not_true_eq_false, if_false, reduceIte] <;>
      exact lookup_cacheInsert _ _ _
  | some p =>
    obtain ⟨data, ts⟩ := p
    by_cases hfr : t0 - ts < DISK_USAGE_CACHE_TTL
    · simp only [get_guest_disk_usage_cached, hcl, if_pos hfr] at hfetch
      simp at hfetch
    · cases fetch <;>
        simp only [get_guest_disk_usage_cached, hcl, if_neg hfr] <;>
        simp only [ne_eq, not_true_eq_false, if_false, reduceIte] <;>
        exact lookup_cacheInsert _ _ _

theorem storage_stores (cache : List (String × List Sample × Nat)) (t0 : Nat)
    (fetch : Option (List Resource))
    (hfetch : (get_storage_metrics_cached cache t0 fetch).fetched = true) :
    cacheLookup (get_storage_metrics_cached cache t0 fetch).cache "storage"
      = some ((get_storage_metrics_cached cache t0 fetch).value, t0) := by
  cases hcl : cacheLookup cache "storage" with
  | none =>
    simp only [get_storage_metrics_cached, hcl]
    exact lookup_cacheInsert _ _ _
  | some p =>
    obtain ⟨data, ts⟩ := p
    by_cases hfr : t0 - ts < STORAGE_CACHE_TTL
    · simp only [get_storage_metrics_cached, hcl, if_pos hfr] at hfetch
      simp at hfetch
    · simp only [get_storage_metrics_cached, hcl, if_neg hfr]
      exact lookup_cacheInsert _ _ _

theorem ceph_stores (cache : List (String × List Sample × Nat)) (t0 : Nat)
    (fetch : Option CephStatus)
    (hfetch : (get_ceph_metrics_cached cache t0 fetch).fetched = true) :
    cacheLookup (get_ceph_metrics_cached cache t0 fetch).cache "ceph"
      = some ((get_ceph_metrics_cached cache t0 fetch).value, t0) := by
  cases hcl : cacheLookup cache "ceph" with
  | none =>
    simp only [get_ceph_metrics_cached, hcl]
    exact lookup_cacheInsert _ _ _
  | some p =>
    obtain ⟨data, ts⟩ := p
    by_cases hfr : t0 - ts < CEPH_CACHE_TTL
    · simp only [get_ceph_metrics_cached, hcl, if_pos hfr] at hfetch
      simp at hfetch
    · simp only [get_ceph_metrics_cached, hcl, if_neg hfr]
      exact lookup_cacheInsert _ _ _

theorem advanceCursor_eq (r : List Nat) (hr : r ≠ []) (c : Nat) :
    advanceCursor r c = (c + 2) % r.length := by
  have hn : 0 < r.length := List.length_pos.mpr hr
  rw [advanceCursor, if_neg hr, Nat.max_eq_left hn]

theorem cursorIter_mod (r : List Nat) (hr : r ≠ []) :
    ∀ (k c : Nat), cursorIter r k c % r.length = (c + 2 * k) % r.length := by
  intro k
  induction k with
  | zero => intro c; simp [cursorIter]
  | succ k ih =>
    intro c
    rw [cursorIter, advanceCursor_eq r hr, ih, Nat.mod_add_mod]
    congr 1
    ring

theorem cursorIter_eq (r : List Nat) (hr : r ≠ []) :
    ∀ (k c : Nat), c < r.length → cursorIter r k c = (c + 2 * k) % r.length := by
  have hn : 0 < r.length := List.length_pos.mpr hr
  intro k
  induction k with
  | zero => intro c hc; simp [cursorIter, Nat.mod_eq_of_lt hc]
  | succ k ih =>
    intro c hc
    rw [cursorIter, advanceCursor_eq r hr, ih _ (Nat.mod_lt _ hn), Nat.mod_add_mod]
    congr 1
    ring

theorem add_mod_eq_self_iff (n c m : Nat) (hc : c < n) (hm : m < n) :
    ((c + m) % n = c) ↔ m = 0 := by
  constructor
  · intro h
    by_cases hlt : c + m < n
    · rw [Nat.mod_eq_of_lt hlt] at h
      omega
    · have h1 : (c + m) % n = c + m - n := by
        rw [Nat.mod_eq_sub_mod (by omega)]
        exact Nat.mod_eq_of_lt (by omega)
      omega
  · intro h
    subst h
    simp [Nat.mod_eq_of_lt hc]

theorem add_two_mul_mod_eq_iff (n c k : Nat) (hn : 0 < n) (hc : c < n) :
    ((c + 2 * k) % n = c) ↔ n ∣ 2 * k := by
  have h1 : (c + 2 * k) % n = (c + 2 * k % n) % n := by
    conv_lhs => rw [Nat.add_mod]
    rw [Nat.mod_eq_of_lt hc]
  rw [h1, add_mod_eq_self_iff n c (2 * k % n) hc (Nat.mod_lt _ hn)]
  exact Nat.dvd_iff_mod_eq_zero.symm

theorem gcd_two_of_even (n : Nat) (h : n % 2 = 0) : Nat.gcd n 2 = 2 := by
  rw [Nat.gcd_comm]
  exact Nat.gcd_eq_left (Nat.dvd_iff_mod_eq_zero.mpr h)

theorem gcd_two_of_odd (n : Nat) (h : n % 2 = 1) : Nat.gcd n 2 = 1 := by
  rw [Nat.gcd_comm, Nat.gcd_rec, h]
  exact Nat.gcd_one_left 2

theorem period_dvd_iff (n k : Nat) (hn : 0 < n) :
    (n ∣ 2 * k) ↔ (n / Nat.gcd n 2 ∣ k) := by
  rcases Nat.mod_two_eq_zero_or_one n with he | ho
  · obtain ⟨m, hm⟩ : 2 ∣ n := Nat.dvd_iff_mod_eq_zero.mpr he
    subst hm
    rw [gcd_two_of_even _ he, Nat.mul_div_cancel_left m (by omega)]
    exact mul_dvd_mul_iff_left (two_ne_zero)
  · rw [gcd_two_of_odd _ ho, Nat.div_one]
    constructor
    · intro h
      have hco : Nat.Coprime n 2 := by
        unfold Nat.Coprime
        exact gcd_two_of_odd _ ho
      exact hco.dvd_of_dvd_mul_left h
    · intro h
      exact Dvd.dvd.mul_left h 2

theorem mem_vmsToCheck (r : List Nat) (cur i : Nat) (hr : r ≠ []) (hi : i < 2) :
    r.get ⟨(cur + i) % r.length, Nat.mod_lt _ (List.length_pos.mpr hr)⟩
      ∈ vmsToCheck r cur := by
  unfold vmsToCheck
  rw [if_neg hr]
  apply List.mem_filterMap.mpr
  refine ⟨i, List.mem_range.mpr hi, ?_⟩
  rw [List.getElem?_eq_getElem (Nat.mod_lt _ (List.length_pos.mpr hr))]
  simp [List.get_eq_getElem]

theorem splitFirst_eq_none (c : Char) (l : List Char) (h : c ∉ l) :
    splitFirst c l = none := by
  induction l with
  | nil => rfl
  | cons x xs ih =>
    simp only [List.mem_cons, not_or] at h
    rw [splitFirst, if_neg (fun he => h.1 he.symm), ih h.2]

theorem mod_shift_hit (n a m : Nat) (hn : 0 < n) (hm : m < n) :
    (a + (m + (n - a % n)) % n) % n = m := by
  have hxlt : a % n < n := Nat.mod_lt _ hn
  obtain ⟨q, hq⟩ : ∃ q, a = n * q + a % n := ⟨a / n, (Nat.div_add_mod a n).symm⟩
  by_cases hcase : m + (n - a % n) < n
  · rw [Nat.mod_eq_of_lt hcase,
      show a + (m + (n - a % n)) = n * q + (m + n) from by omega,
      Nat.mul_add_mod, Nat.add_mod_right]
    exact Nat.mod_eq_of_lt hm
  · have h2 : (m + (n - a % n)) % n = m - a % n := by
      rw [Nat.mod_eq_sub_mod (by omega),
        show m + (n - a % n) - n = m - a % n from by omega]
      exact Nat.mod_eq_of_lt (by omega)
    rw [h2, show a + (m - a % n) = n * q + m from by omega, Nat.mul_add_mod]
    exact Nat.mod_eq_of_lt hm

/-- C8: `log_error_once` returns true (and emits) on the first call for a key
not in the suppression set, returns false and leaves the set unchanged on
every immediately following call with the same key (the key stays recorded),
and after `clear_error_log` the next call returns true again. -/
theorem C8_report_once_dedup (s : List String) (k : String) (h : k ∉ s) :
    (log_error_once s k).1 = true ∧
    (∀ s' : List String, k ∈ s' →
      (log_error_once s' k).1 = false ∧ (log_error_once s' k).2 = s') ∧
    k ∈ (log_error_once s k).2 ∧
    (∀ s' : List String, (log_error_once (clear_error_log s' k) k).1 = true) := by
  refine ⟨?_, ?_, ?_, ?_⟩
  · simp [log_error_once, h]
  · intro s' hk
    simp [log_error_once, hk]
  · simp [log_error_once, h]
  · intro s'
    have hcl : k ∉ clear_error_log s' k := by
      simp [clear_error_log]
    simp [log_error_once, hcl]

/-- C8 witness: a concrete emit / suppress / clear / re-emit cycle. -/
theorem C8_report_once_dedup_witness :
    (log_error_once [] "storage_api_error").1 = true ∧
    (log_error_once (log_error_once [] "storage_api_error").2 "storage_api_error").1 = false ∧
    (log_error_once (clear_error_log (log_error_once [] "storage_api_error").2
        "storage_api_error") "storage_api_error").1 = true := by
  obtain ⟨h1, h2, h3, h4⟩ := C8_report_once_dedup [] "storage_api_error" (by decide)
  exact ⟨h1, (h2 _ h3).1, h4 _⟩

/-- C9: the combined token `user@realm!tok=secretvalue` parses to user
`user@realm`, token name `tok`, token value `secretvalue`; a token missing
the `!` separator, or missing the `=` separator after the `!`, parses to no
credential, and `authenticate` then falls through to the username/password
path when it is configured, else returns false. -/
theorem C9_token_parse (t : String)
    (proxmoxUser tokenName tokenValue proxmoxPass : Option String)
    (validUntil now : Nat) (passwordLoginOk : Bool)
    (hmal : '!' ∉ t.toList ∨
      ∃ u rest, splitFirst '!' t.toList = some (u, rest) ∧ '=' ∉ rest)
    (hvu : validUntil ≤ now)
    (henv : (truthy proxmoxUser && truthy tokenName && truthy tokenValue) = false) :
    parse_pve_api_token "user@realm!tok=secretvalue"
        = some ("user@realm", "tok", "secretvalue") ∧
    parse_pve_api_token t = none ∧
    authenticate proxmoxUser tokenName tokenValue (some t) proxmoxPass
        validUntil now passwordLoginOk
      = (if truthy proxmoxPass && truthy proxmoxUser
         then (passwordLoginOk, AuthPath.passwordAuth)
         else (false, AuthPath.failedAuth)) := by
  have hparse : parse_pve_api_token t = none := by
    unfold parse_pve_api_token
    by_cases he : t.isEmpty
    · rw [if_pos he]
    · rw [if_neg he]
      rcases hmal with h1 | ⟨u, rest, hsp, hne⟩
      · rw [splitFirst_eq_none _ _ h1]
      · simp only [hsp, splitFirst_eq_none _ _ hne]
  refine ⟨by decide, hparse, ?_⟩
  unfold authenticate
  rw [if_neg (by omega)]
  by_cases ht : truthy (some t)
  · simp only [henv, Bool.not_false, ht, Bool.and_true, Bool.true_and,
      Option.getD, hparse]
    simp [truthy]
  · simp only [henv, ht, Bool.and_false, Bool.not_false, Bool.true_and]
    simp [henv]

/-- C9 witness: the malformed token `userrealmtok` (no `!`) with no split
env credentials and no password configured makes authentication fail. -/
theorem C9_token_parse_witness :
    parse_pve_api_token "user@realm!tok=secretvalue"
        = some ("user@realm", "tok", "secretvalue") ∧
    parse_pve_api_token "userrealmtok" = none ∧
    authenticate none none none (some "userrealmtok") none 0 5 false
      = (false, AuthPath.failedAuth) := by
  obtain ⟨h1, h2, h3⟩ := C9_token_parse "userrealmtok" none none none none 0 5 false
    (Or.inl (by decide)) (by omega) (by decide)
  exact ⟨h1, h2, by simpa using h3⟩

/-- C10: with zero running entities in the scrape, the rotation cursor is
left unchanged and no probe call is issued; the batch selection and the
cursor update (the only places with a modulus) are skipped entirely, so no
modulus with divisor zero is evaluated. -/
theorem C10_no_running_no_rotation (node_name : String)
    (swapCache : List (String × SwapData × Nat)) (rotation_index now : Nat)
    (statusFetch : Nat → Option SwapData) (resources : List Resource)
    (hrun : (buildGuestStatus node_name resources).2 = []) :
    (get_realtime_guest_status (some resources) node_name swapCache rotation_index now
        statusFetch).rotation_index = rotation_index ∧
    (get_realtime_guest_status (some resources) node_name swapCache rotation_index now
        statusFetch).probed = [] ∧
    vmsToCheck [] rotation_index = [] ∧
    advanceCursor [] rotation_index = rotation_index := by
  refine ⟨?_, ?_, by simp [vmsToCheck], by simp [advanceCursor]⟩ <;>
    simp [get_realtime_guest_status, hrun]

/-- C10 witness: an empty bulk listing leaves cursor 7 unchanged and issues
no probes. -/
theorem C10_no_running_no_rotation_witness :
    (get_realtime_guest_status (some []) "n" [] 7 0 (fun _ => none)).rotation_index = 7 ∧
    (get_realtime_guest_status (some []) "n" [] 7 0 (fun _ => none)).probed = [] := by
  obtain ⟨h1, h2, _, _⟩ :=
    C10_no_running_no_rotation "n" [] 7 0 (fun _ => none) [] (by decide)
  exact ⟨h1, h2⟩

/-- A concrete stable running list of five entities for the rotation claims. -/
def r5 : List Nat := [101, 102, 103, 104, 105]

/-- C3 counterexample: with five running entities and batch size 2 the
cursor is at 1, not back at its start 0, after ceil(5/2) = 3 scrapes; it
first returns to 0 after 5 scrapes. -/
theorem C3_period_counterexample :
    cursorIter r5 3 0 = 1 ∧ cursorIter r5 3 0 ≠ 0 ∧ cursorIter r5 5 0 = 0 := by decide

/-- C3 amended: over a stable non-empty running list of length n the cursor,
advanced by 2 mod n per scrape, first returns to its start after
n / gcd(n, 2) scrapes — n/2 for even n but n for odd n, so the period for
n = 5 is 5, not ceil(5/2) = 3. -/
theorem C3_cursor_period (r : List Nat) (c : Nat) (hr : r ≠ []) (hc : c < r.length) :
    cursorIter r (r.length / Nat.gcd r.length 2) c = c ∧
    ∀ k, 0 < k → k < r.length / Nat.gcd r.length 2 → cursorIter r k c ≠ c := by
  have hn : 0 < r.length := List.length_pos.mpr hr
  constructor
  · rw [cursorIter_eq r hr _ _ hc,
      add_two_mul_mod_eq_iff r.length c _ hn hc]
    exact (period_dvd_iff r.length _ hn).mpr dvd_rfl
  · intro k hk0 hkp hEq
    rw [cursorIter_eq r hr k c hc] at hEq
    have hdvd := (period_dvd_iff r.length k hn).mp
      ((add_two_mul_mod_eq_iff r.length c k hn hc).mp hEq)
    have := Nat.le_of_dvd hk0 hdvd
    omega

/-- C3 amended witness: for the five-entity list the cursor starting at 0
returns after 5 scrapes and is elsewhere after 3. -/
theorem C3_cursor_period_witness :
    cursorIter r5 5 0 = 0 ∧ cursorIter r5 3 0 ≠ 0 := by
  obtain ⟨h1, h2⟩ := C3_cursor_period r5 0 (by decide) (by decide)
  rw [show r5.length / Nat.gcd r5.length 2 = 5 from by decide] at h1
  exact ⟨h1, h2 3 (by decide) (by decide)⟩

/-- C5: across ceil(n/2) consecutive scrapes over a stable non-empty running
list of length n, every running entity is selected for a fresh probe at
least once (it appears in some scrape's `vms_to_check` batch). -/
theorem C5_rotation_coverage (r : List Nat) (c m : Nat) (hr : r ≠ [])
    (hm : m < r.length) :
    ∃ j, j < (r.length + 1) / 2 ∧
      ∃ v, r[m]? = some v ∧ v ∈ vmsToCheck r (cursorIter r j c) := by
  have hn : 0 < r.length := List.length_pos.mpr hr
  have hcn : c % r.length < r.length := Nat.mod_lt _ hn
  set D := (m + (r.length - c % r.length)) % r.length with hD
  have hDlt : D < r.length := Nat.mod_lt _ hn
  have hi2 : D % 2 < 2 := Nat.mod_lt _ (by omega)
  have hidx : (cursorIter r (D / 2) c + D % 2) % r.length = m := by
    have h1 : (cursorIter r (D / 2) c + D % 2) % r.length
        = (c + D) % r.length := by
      conv_lhs => rw [Nat.add_mod, cursorIter_mod r hr, Nat.mod_add_mod, Nat.add_mod_mod]
      rw [show c + 2 * (D / 2) + D % 2 = c + D from by omega]
    rw [h1, hD]
    exact mod_shift_hit r.length c m hn hm
  refine ⟨D / 2, by omega, ?_⟩
  refine ⟨r.get ⟨(cursorIter r (D / 2) c + D % 2) % r.length, Nat.mod_lt _ hn⟩,
    ?_, mem_vmsToCheck r _ (D % 2) hr hi2⟩
  rw [← hidx, List.getElem?_eq_getElem (Nat.mod_lt _ hn)]
  simp [List.get_eq_getElem]

/-- C5 witness: in the five-entity list the last entity (index 4) is probed
within the first 3 scrapes starting from cursor 0. -/
theorem C5_rotation_coverage_witness :
    ∃ j, j < (r5.length + 1) / 2 ∧
      ∃ v, r5[4]? = some v ∧ v ∈ vmsToCheck r5 (cursorIter r5 j 0) :=
  C5_rotation_coverage r5 0 4 (by decide) (by decide)

theorem disk_fetch_fail (cache : List (String × Option (List FsInfo) × Nat))
    (node_name : String) (vmid : Nat) (now : Nat) (fetch : AgentResp)
    (hnl : ∀ l, fetch ≠ AgentResp.resultList l)
    (hexp : ∀ d ts, cacheLookup cache (node_name ++ ":" ++ toString vmid ++ ":disk")
        = some (d, ts) → DISK_USAGE_CACHE_TTL ≤ now - ts) :
    get_guest_disk_usage_cached cache node_name vmid "qemu" now fetch
      = ⟨none, cacheInsert cache (node_name ++ ":" ++ toString vmid ++ ":disk") (none, now),
         true⟩ := by
  cases hcl : cacheLookup cache (node_name ++ ":" ++ toString vmid ++ ":disk") with
  | none =>
    cases fetch with
    | resultList l => exact absurd rfl (hnl l)
    | fail => simp [get_guest_disk_usage_cached, hcl]
    | agentError => simp [get_guest_disk_usage_cached, hcl]
    | resultNotList => simp [get_guest_disk_usage_cached, hcl]
  | some p =>
    obtain ⟨d, ts⟩ := p
    have hx : ¬(now - ts < DISK_USAGE_CACHE_TTL) := by
      have := hexp d ts hcl
      omega
    cases fetch with
    | resultList l => exact absurd rfl (hnl l)
    | fail => simp [get_guest_disk_usage_cached, hcl, hx]
    | agentError => simp [get_guest_disk_usage_cached, hcl, hx]
    | resultNotList => simp [get_guest_disk_usage_cached, hcl, hx]

theorem storage_fetch_fail (cache : List (String × List Sample × Nat)) (now : Nat)
    (hexp : ∀ d ts, cacheLookup cache "storage" = some (d, ts)
        → STORAGE_CACHE_TTL ≤ now - ts) :
    get_storage_metrics_cached cache now none
      = ⟨[], cacheInsert cache "storage" ([], now), true⟩ := by
  cases hcl : cacheLookup cache "storage" with
  | none => simp [get_storage_metrics_cached, hcl]
  | some p =>
    obtain ⟨d, ts⟩ := p
    have hx : ¬(now - ts < STORAGE_CACHE_TTL) := by
      have := hexp d ts hcl
      omega
    simp [get_storage_metrics_cached, hcl, hx]

/-- C7: for each cache category a fresh hit returns the cached value with no
upstream call; and after a call that stored an entry (a successful config
fetch; any fetch outcome for the disk, storage and Ceph categories) a second
call for the same key within the TTL window returns that value with no
upstream call — so two calls within one TTL window issue exactly one
upstream call. -/
theorem C7_single_fetch_per_ttl :
    (∀ cache node_name vmid guest_type now fetch data ts,
      cacheLookup cache (node_name ++ ":" ++ guest_type ++ ":" ++ toString vmid)
          = some (data, ts) →
      now - ts < CONFIG_CACHE_TTL →
      get_vm_config_cached cache node_name vmid guest_type now fetch
        = ⟨data, cache, false⟩) ∧
    (∀ cache node_name vmid now fetch data ts,
      cacheLookup cache (node_name ++ ":" ++ toString vmid ++ ":disk") = some (data, ts) →
      now - ts < DISK_USAGE_CACHE_TTL →
      get_guest_disk_usage_cached cache node_name vmid "qemu" now fetch
        = ⟨data, cache, false⟩) ∧
    (∀ cache now fetch data ts,
      cacheLookup cache "storage" = some (data, ts) → now - ts < STORAGE_CACHE_TTL →
      get_storage_metrics_cached cache now fetch = ⟨data, cache, false⟩) ∧
    (∀ cache now fetch data ts,
      cacheLookup cache "ceph" = some (data, ts) → now - ts < CEPH_CACHE_TTL →
      get_ceph_metrics_cached cache now fetch = ⟨data, cache, false⟩) ∧
    (∀ cache node_name vmid guest_type t0 t1 raw fetch2,
      (get_vm_config_cached cache node_name vmid guest_type t0 (some raw)).fetched = true →
      t1 - t0 < CONFIG_CACHE_TTL →
      get_vm_config_cached
          (get_vm_config_cached cache node_name vmid guest_type t0 (some raw)).cache
          node_name vmid guest_type t1 fetch2
        = ⟨(get_vm_config_cached cache node_name vmid guest_type t0 (some raw)).value,
           (get_vm_config_cached cache node_name vmid guest_type t0 (some raw)).cache,
           false⟩) ∧
    (∀ cache node_name vmid t0 t1 fetch fetch2,
      (get_guest_disk_usage_cached cache node_name vmid "qemu" t0 fetch).fetched = true →
      t1 - t0 < DISK_USAGE_CACHE_TTL →
      get_guest_disk_usage_cached
          (get_guest_disk_usage_cached cache node_name vmid "qemu" t0 fetch).cache
          node_name vmid "qemu" t1 fetch2
        = ⟨(get_guest_disk_usage_cached cache node_name vmid "qemu" t0 fetch).value,
           (get_guest_disk_usage_cached cache node_name vmid "qemu" t0 fetch).cache,
           false⟩) ∧
    (∀ cache t0 t1 fetch fetch2,
      (get_storage_metrics_cached cache t0 fetch).fetched = true →
      t1 - t0 < STORAGE_CACHE_TTL →
      get_storage_metrics_cached (get_storage_metrics_cached cache t0 fetch).cache t1 fetch2
        = ⟨(get_storage_metrics_cached cache t0 fetch).value,
           (get_storage_metrics_cached cache t0 fetch).cache, false⟩) ∧
    (∀ cache t0 t1 fetch fetch2,
      (get_ceph_metrics_cached cache t0 fetch).fetched = true →
      t1 - t0 < CEPH_CACHE_TTL →
      get_ceph_metrics_cached (get_ceph_metrics_cached cache t0 fetch).cache t1 fetch2
        = ⟨(get_ceph_metrics_cached cache t0 fetch).value,
           (get_ceph_metrics_cached cache t0 fetch).cache, false⟩) := by
  refine ⟨config_cache_hit, disk_cache_hit, storage_cache_hit, ceph_cache_hit,
    ?_, ?_, ?_, ?_⟩
  · intro cache node_name vmid guest_type t0 t1 raw fetch2 hf ht
    exact config_cache_hit _ _ _ _ _ _ _ _ (config_stores _ _ _ _ _ _ hf) ht
  · intro cache node_name vmid t0 t1 fetch fetch2 hf ht
    exact disk_cache_hit _ _ _ _ _ _ _ (disk_stores _ _ _ _ _ hf) ht
  · intro cache t0 t1 fetch fetch2 hf ht
    exact storage_cache_hit _ _ _ _ _ (storage_stores _ _ _ hf) ht
  · intro cache t0 t1 fetch fetch2 hf ht
    exact ceph_cache_hit _ _ _ _ _ (ceph_stores _ _ _ hf) ht

/-- C7 witness: starting from empty caches, a first call fetches and a
second call within the TTL window does not, for all four categories. -/
theorem C7_single_fetch_per_ttl_witness :
    (get_vm_config_cached [] "n" 100 "qemu" 0
        (some ⟨some "l26", none, some 2, some 2⟩)).fetched = true ∧
    (get_vm_config_cached
        (get_vm_config_cached [] "n" 100 "qemu" 0
          (some ⟨some "l26", none, some 2, some 2⟩)).cache
        "n" 100 "qemu" 10 none).fetched = false ∧
    (get_guest_disk_usage_cached [] "n" 100 "qemu" 0 AgentResp.fail).fetched = true ∧
    (get_guest_disk_usage_cached
        (get_guest_disk_usage_cached [] "n" 100 "qemu" 0 AgentResp.fail).cache
        "n" 100 "qemu" 10 AgentResp.fail).fetched = false ∧
    (get_storage_metrics_cached [] 0 none).fetched = true ∧
    (get_storage_metrics_cached (get_storage_metrics_cached [] 0 none).cache
        30 none).fetched = false ∧
    (get_ceph_metrics_cached [] 0 none).fetched = true ∧
    (get_ceph_metrics_cached (get_ceph_metrics_cached [] 0 none).cache
        10 none).fetched = false := by
  obtain ⟨h1, h2, h3, h4, h5, h6, h7, h8⟩ := C7_single_fetch_per_ttl
  refine ⟨by decide, ?_, by decide, ?_, by decide, ?_, by decide, ?_⟩
  · rw [h5 [] "n" 100 "qemu" 0 10 ⟨some "l26", none, some 2, some 2⟩ none
      (by decide) (by decide)]
  · rw [h6 [] "n" 100 0 10 AgentResp.fail AgentResp.fail (by decide) (by decide)]
  · rw [h7 [] 0 30 none none (by decide) (by decide)]
  · rw [h8 [] 0 10 none none (by decide) (by decide)]

/-- C2: when an upstream fetch fails (transport failure, non-OK response,
guest-agent error or malformed payload), `get_guest_disk_usage_cached` and
`get_storage_metrics_cached` overwrite the cache entry for the key with the
failure result (`None`, resp. the empty list) timestamped now; every call in
the following TTL window returns the failure result without an upstream
call, and the previously cached successful value is discarded. -/
theorem C2_failure_overwrites_cache :
    (∀ cache node_name vmid now fetch,
      (∀ l, fetch ≠ AgentResp.resultList l) →
      (∀ d ts, cacheLookup cache (node_name ++ ":" ++ toString vmid ++ ":disk")
          = some (d, ts) → DISK_USAGE_CACHE_TTL ≤ now - ts) →
      (get_guest_disk_usage_cached cache node_name vmid "qemu" now fetch).value = none ∧
      (get_guest_disk_usage_cached cache node_name vmid "qemu" now fetch).fetched = true ∧
      cacheLookup (get_guest_disk_usage_cached cache node_name vmid "qemu" now fetch).cache
          (node_name ++ ":" ++ toString vmid ++ ":disk") = some (none, now) ∧
      (∀ t1 fetch2, t1 - now < DISK_USAGE_CACHE_TTL →
        get_guest_disk_usage_cached
            (get_guest_disk_usage_cached cache node_name vmid "qemu" now fetch).cache
            node_name vmid "qemu" t1 fetch2
          = ⟨none,
             (get_guest_disk_usage_cached cache node_name vmid "qemu" now fetch).cache,
             false⟩)) ∧
    (∀ cache now,
      (∀ d ts, cacheLookup cache "storage" = some (d, ts)
          → STORAGE_CACHE_TTL ≤ now - ts) →
      (get_storage_metrics_cached cache now none).value = [] ∧
      (get_storage_metrics_cached cache now none).fetched = true ∧
      cacheLookup (get_storage_metrics_cached cache now none).cache "storage"
        = some ([], now) ∧
      (∀ t1 fetch2, t1 - now < STORAGE_CACHE_TTL →
        get_storage_metrics_cached (get_storage_metrics_cached cache now none).cache
            t1 fetch2
          = ⟨[], (get_storage_metrics_cached cache now none).cache, false⟩)) := by
  constructor
  · intro cache node_name vmid now fetch hnl hexp
    have hff := disk_fetch_fail cache node_name vmid now fetch hnl hexp
    rw [hff]
    refine ⟨rfl, rfl, lookup_cacheInsert _ _ _, ?_⟩
    intro t1 fetch2 ht
    exact disk_cache_hit _ _ _ _ _ _ _ (lookup_cacheInsert _ _ _) ht
  · intro cache now hexp
    have hff := storage_fetch_fail cache now hexp
    rw [hff]
    refine ⟨rfl, rfl, lookup_cacheInsert _ _ _, ?_⟩
    intro t1 fetch2 ht
    exact storage_cache_hit _ _ _ _ _ (lookup_cacheInsert _ _ _) ht

/-- C2 witness: a failing disk fetch overwrites a prior expired successful
entry with `(None, now)` and a second call 10 s later serves `None` with no
upstream call; likewise for the storage category. -/
theorem C2_failure_overwrites_cache_witness :
    (get_guest_disk_usage_cached
        [("n:100:disk", (some [⟨some "/", some 10, some 5⟩], 0))]
        "n" 100 "qemu" 30 AgentResp.fail).value = none ∧
    cacheLookup (get_guest_disk_usage_cached
        [("n:100:disk", (some [⟨some "/", some 10, some 5⟩], 0))]
        "n" 100 "qemu" 30 AgentResp.fail).cache "n:100:disk" = some (none, 30) ∧
    (get_storage_metrics_cached
        [("storage", ([⟨"proxmox_storage_total_bytes", "node=\"n\",storage=\"s\"", 5⟩], 0))]
        60 none).value = [] := by
  obtain ⟨hd, hs⟩ := C2_failure_overwrites_cache
  obtain ⟨h1, h2, h3, h4⟩ := hd [("n:100:disk", (some [⟨some "/", some 10, some 5⟩], 0))]
    "n" 100 30 AgentResp.fail (by intro l h; cases h)
    (by
      intro d ts h
      have h2 : (some ((some [(⟨some "/", some 10, some 5⟩ : FsInfo)], 0))
          : Option (Option (List FsInfo) × Nat)) = some (d, ts) := by
        rw [← h]; decide
      simp only [Option.some.injEq, Prod.mk.injEq] at h2
      simp only [DISK_USAGE_CACHE_TTL]
      omega)
  obtain ⟨g1, g2, g3, g4⟩ := hs
    [("storage", ([⟨"proxmox_storage_total_bytes", "node=\"n\",storage=\"s\"", 5⟩], 0))]
    60
    (by
      intro d ts h
      have h2 : (some (([(⟨"proxmox_storage_total_bytes", "node=\"n\",storage=\"s\"", 5⟩ : Sample)], 0))
          : Option (List Sample × Nat)) = some (d, ts) := by
        rw [← h]; decide
      simp only [Option.some.injEq, Prod.mk.injEq] at h2
      simp only [STORAGE_CACHE_TTL]
      omega)
  exact ⟨h1, h3, g1⟩

/-- C1 counterexample: with an expired prior config entry and a failing
refetch, `get_vm_config_cached` returns the zero value
`{ostype := "unknown", cpus := 0}` and not the prior cached value; likewise
an expired prior storage entry with a failing refetch yields `[]`, not the
prior sample list. -/
theorem C1_stale_fallback_counterexample :
    (get_vm_config_cached [("n:qemu:100", ((⟨"l26", 4⟩ : ConfigData), 0))]
        "n" 100 "qemu" 600 none).value = ⟨"unknown", 0⟩ ∧
    ((⟨"unknown", 0⟩ : ConfigData) ≠ ⟨"l26", 4⟩) ∧
    (get_storage_metrics_cached
        [("storage", ([⟨"proxmox_storage_total_bytes", "node=\"n\",storage=\"s\"", 5⟩], 0))]
        60 none).value = [] := by decide

/-- C1 amended: after the TTL elapses and the refetch fails, the cached
lookups return the category's zero value regardless of whether a prior
cached value exists — `get_vm_config_cached` returns
`{ostype := "unknown", cpus := 0}` (the stale entry stays stored but is not
returned) and `get_storage_metrics_cached` returns `[]` and overwrites the
prior entry with `([], now)`; the zero value is also returned when no prior
value exists. -/
theorem C1_fetch_failure_zero_value
    (cache : List (String × ConfigData × Nat)) (node_name : String) (vmid : Nat)
    (guest_type : String) (now : Nat) (prior : ConfigData) (ts : Nat)
    (hl : cacheLookup cache (node_name ++ ":" ++ guest_type ++ ":" ++ toString vmid)
        = some (prior, ts))
    (hexp : CONFIG_CACHE_TTL ≤ now - ts) :
    get_vm_config_cached cache node_name vmid guest_type now none
      = ⟨⟨"unknown", 0⟩, cache, true⟩ ∧
    (∀ cache2 : List (String × ConfigData × Nat),
      cacheLookup cache2 (node_name ++ ":" ++ guest_type ++ ":" ++ toString vmid) = none →
      get_vm_config_cached cache2 node_name vmid guest_type now none
        = ⟨⟨"unknown", 0⟩, cache2, true⟩) ∧
    (∀ (scache : List (String × List Sample × Nat)) (sprior : List Sample) (sts : Nat),
      cacheLookup scache "storage" = some (sprior, sts) → STORAGE_CACHE_TTL ≤ now - sts →
      get_storage_metrics_cached scache now none
        = ⟨[], cacheInsert scache "storage" ([], now), true⟩) := by
  refine ⟨?_, ?_, ?_⟩
  · simp [get_vm_config_cached, hl, show ¬(now - ts < CONFIG_CACHE_TTL) from by omega]
  · intro cache2 h2
    simp [get_vm_config_cached, h2]
  · intro scache sprior sts hsl hsexp
    apply storage_fetch_fail
    intro d dts h
    have h2 := hsl.symm.trans h
    simp only [Option.some.injEq, Prod.mk.injEq] at h2
    omega

/-- C1 amended witness: the concrete expired entry from the counterexample,
run through the amended statement. -/
theorem C1_fetch_failure_zero_value_witness :
    get_vm_config_cached [("n:qemu:100", ((⟨"l26", 4⟩ : ConfigData), 0))]
        "n" 100 "qemu" 600 none
      = ⟨⟨"unknown", 0⟩, [("n:qemu:100", ((⟨"l26", 4⟩ : ConfigData), 0))], true⟩ ∧
    get_storage_metrics_cached
        [("storage", ([⟨"proxmox_storage_total_bytes", "node=\"n\",storage=\"s\"", 5⟩], 0))]
        600 none
      = ⟨[], cacheInsert
          [("storage", ([⟨"proxmox_storage_total_bytes", "node=\"n\",storage=\"s\"", 5⟩], 0))]
          "storage" ([], 600), true⟩ := by
  obtain ⟨h1, h2, h3⟩ := C1_fetch_failure_zero_value
    [("n:qemu:100", ((⟨"l26", 4⟩ : ConfigData), 0))] "n" 100 "qemu" 600 ⟨"l26", 4⟩ 0
    (by decide) (by decide)
  refine ⟨h1, h3 _ [⟨"proxmox_storage_total_bytes", "node=\"n\",storage=\"s\"", 5⟩] 0
    (by decide) (by decide)⟩

/-- Empty exporter state: all caches empty, rotation cursor 0. -/
def emptyAppState : AppState := ⟨[], [], [], [], [], 0⟩

/-- Upstream oracle where authentication succeeds and every other upstream
call fails. -/
def upAllFail : Upstream :=
  { authOk := true, bulkGuest := none, bulkStorage := none
  , configFetch := fun _ _ => none, diskFetch := fun _ => AgentResp.fail
  , statusFetch := fun _ => none, cephFetch := none, hostFetch := none }

/-- C4 counterexample: when the bulk cluster-resource listing fails the
scrape is not aborted with a 500 response; the endpoint returns 200 (here
with an empty body since every other fetch also fails), unlike the handling
of an authentication failure. -/
theorem C4_bulk_failure_counterexample :
    (pve_metrics emptyAppState upAllFail "node1" 0).1 = ScrapeResult.ok [] ∧
    statusCode (pve_metrics emptyAppState upAllFail "node1" 0).1 = 200 ∧
    statusCode (pve_metrics emptyAppState upAllFail "node1" 0).1 ≠ 500 ∧
    statusCode (ScrapeResult.err "# Auth failed") = 500 := by decide

/-- C4 amended: a bulk-listing failure is not fatal for the scrape: the
guest section is empty, the scrape continues, the body is exactly the
storage, Ceph and host sections, the response status is 200, and the
rotation cursor is unchanged; only the auth failure yields the 500
response. -/
theorem C4_bulk_failure_degrades (st : AppState) (up : Upstream)
    (node_name : String) (now : Nat)
    (hauth : up.authOk = true) (hbulk : up.bulkGuest = none) :
    (pve_metrics st up node_name now).1
      = ScrapeResult.ok
          ((get_storage_metrics_cached st.storageCache now up.bulkStorage).value
            ++ (get_ceph_metrics_cached st.cephCache now up.cephFetch).value
            ++ get_host_resources_realtime node_name up.hostFetch) ∧
    statusCode (pve_metrics st up node_name now).1 = 200 ∧
    (pve_metrics st up node_name now).2.rotation_index = st.rotation_index := by
  refine ⟨?_, ?_, ?_⟩ <;>
    simp [pve_metrics, hauth, hbulk, get_realtime_guest_status, statusCode]

/-- C4 amended witness: the all-failing upstream from the counterexample,
run through the amended statement. -/
theorem C4_bulk_failure_degrades_witness :
    (pve_metrics emptyAppState upAllFail "node1" 0).1
      = ScrapeResult.ok
          ((get_storage_metrics_cached emptyAppState.storageCache 0 upAllFail.bulkStorage).value
            ++ (get_ceph_metrics_cached emptyAppState.cephCache 0 upAllFail.cephFetch).value
            ++ get_host_resources_realtime "node1" upAllFail.hostFetch) ∧
    statusCode (pve_metrics emptyAppState upAllFail "node1" 0).1 = 200 := by
  obtain ⟨h1, h2, h3⟩ := C4_bulk_failure_degrades emptyAppState upAllFail "node1" 0 rfl rfl
  exact ⟨h1, h2⟩

/-- A running qemu VM with 512 MiB of memory used out of 1024 MiB and zero
disk numbers, as the bulk listing reports it. -/
def vmRes : Resource :=
  { rtype := some "qemu", node := some "n", vmid := some 100, name := some "web"
  , status := some "running", cpu := some 0
  , mem := some 536870912, maxmem := some 1073741824
  , disk := some 0, maxdisk := some 0, uptime := some 0
  , netin := some 0, netout := some 0, diskread := some 0, diskwrite := some 0
  , swap := some 0, maxswap := some 0, storage := none }

/-- Upstream oracle for the heavyweight-VM scenario: the guest bulk listing
succeeds with the single VM `vmRes`, every other upstream call fails. -/
def upOneVm : Upstream :=
  { upAllFail with bulkGuest := some [vmRes] }

/-- C6 counterexample: for the running 512 MiB / 1024 MiB VM the endpoint
emits the raw byte samples (memory 536870912 among them) and a
`proxmox_guest_maxdisk_bytes 0` sample, but no emitted sample at all has the
value 0.5 — in particular no memory-utilization sample equal to 0.5
exists. -/
theorem C6_no_ratio_sample_counterexample :
    (∃ s ∈ scrapeSamples (pve_metrics emptyAppState upOneVm "n" 0).1,
      s.name = "proxmox_guest_mem_bytes" ∧ s.value = 536870912) ∧
    (∃ s ∈ scrapeSamples (pve_metrics emptyAppState upOneVm "n" 0).1,
      s.name = "proxmox_guest_maxdisk_bytes" ∧ s.value = 0) ∧
    (∀ s ∈ scrapeSamples (pve_metrics emptyAppState upOneVm "n" 0).1,
      s.value ≠ 1 / 2) := by
  refine ⟨by decide, by decide, ?_⟩
  have hden : ∀ s ∈ scrapeSamples (pve_metrics emptyAppState upOneVm "n" 0).1,
      s.value.den = 1 := by decide
  intro s hs hval
  have h1 := hden s hs
  rw [hval] at h1
  norm_num at h1

/-- C6 amended: the emitted set contains the raw samples
`proxmox_guest_mem_bytes = 536870912` and
`proxmox_guest_maxmem_bytes = 1073741824` — whose ratio is 0.5 — and it
contains (rather than omits) `proxmox_guest_disk_bytes = 0` and
`proxmox_guest_maxdisk_bytes = 0`; every emitted sample name belongs to the
fixed raw-metric vocabulary, which has no utilization-ratio metric. -/
theorem C6_raw_byte_samples :
    (∃ s ∈ scrapeSamples (pve_metrics emptyAppState upOneVm "n" 0).1,
      s.name = "proxmox_guest_mem_bytes" ∧ s.value = 536870912) ∧
    (∃ s ∈ scrapeSamples (pve_metrics emptyAppState upOneVm "n" 0).1,
      s.name = "proxmox_guest_maxmem_bytes" ∧ s.value = 1073741824) ∧
    ((536870912 : ℚ) = (1 / 2) * 1073741824) ∧
    (∃ s ∈ scrapeSamples (pve_metrics emptyAppState upOneVm "n" 0).1,
      s.name = "proxmox_guest_disk_bytes" ∧ s.value = 0) ∧
    (∃ s ∈ scrapeSamples (pve_metrics emptyAppState upOneVm "n" 0).1,
      s.name = "proxmox_guest_maxdisk_bytes" ∧ s.value = 0) ∧
    (∀ s ∈ scrapeSamples (pve_metrics emptyAppState upOneVm "n" 0).1,
      s.name ∈ ["proxmox_guest_status", "proxmox_guest_cpus", "proxmox_guest_cpu_ratio",
        "proxmox_guest_uptime_seconds", "proxmox_guest_mem_bytes",
        "proxmox_guest_maxmem_bytes", "proxmox_guest_disk_bytes",
        "proxmox_guest_maxdisk_bytes", "proxmox_guest_netin_bytes_total",
        "proxmox_guest_netout_bytes_total", "proxmox_guest_diskread_bytes_total",
        "proxmox_guest_diskwrite_bytes_total", "proxmox_guest_swap_bytes",
        "proxmox_guest_maxswap_bytes"]) := by
  refine ⟨by decide, by decide, by norm_num, by decide, by decide, by decide⟩
